import Mathlib

/-!
Shallow embedding of the TP53 Cancer Explorer Streamlit app (src/app.py).

The app loads a CSV feature table (trying two candidate filenames), then
renders one of four pages.  We model the filesystem as an abstract map from
paths to existence flags and parsed CSV contents, a pandas DataFrame as a
column list plus rows of cell values, and each page as a function producing
a list of render items, with `Except` capturing a raised (uncaught) Python
exception.
-/

/-- A cell value of the feature table: a number, a string, or a missing value. -/
inductive Value where
  | num (q : ℚ)
  | str (s : String)
  | null
deriving DecidableEq, Repr

/-- A pandas DataFrame: a list of column names and rows of cells, each row
aligned positionally with the columns. -/
structure DataFrame where
  columns : List String
  rows : List (List Value)
deriving DecidableEq, Repr

/-- The filesystem state: which paths exist, and the parsed CSV table stored
at each path (`pd.read_csv` of that path). -/
structure FileSystem where
  present : String → Bool
  content : String → DataFrame

/-- The candidate filenames tried by `load_features`, in order (app.py lines 24-27). -/
def candidates : List String :=
  ["data/tp53_features_with_similarity_clustered.csv",
   "data/tp53_features_with_similarity.csv"]

/-- The `for fname in [...]` loop body of `load_features`: return the parsed
table of the first existing file, `(None, None)` if none exists. -/
def tryLoad (fs : FileSystem) : List String → Option (DataFrame × String)
  | [] => none
  | f :: rest => if fs.present f then some (fs.content f, f) else tryLoad fs rest

/-- The loader `load_features` (app.py lines 21-31). -/
def load_features (fs : FileSystem) : Option (DataFrame × String) :=
  tryLoad fs candidates

/-- Cell lookup `row[c]` ignoring the KeyError case: the value at column `c`
of a row (first matching column, `null` when absent or when the row is ragged). -/
def lookupCell (cols : List String) (row : List Value) (c : String) : Value :=
  match cols.findIdx? (fun x => x == c) with
  | some i => row.getD i Value.null
  | none => Value.null

/-- Cell lookup `row[c]` on a Series indexed by the columns: raises `KeyError`
when the column is absent. -/
def cellE (cols : List String) (row : List Value) (c : String) : Except String Value :=
  if c ∈ cols then .ok (lookupCell cols row c) else .error ("KeyError: " ++ c)

/-- The flag `has_cluster = "cluster" in features_df.columns` (app.py line 45). -/
def has_cluster (df : DataFrame) : Bool :=
  decide ("cluster" ∈ df.columns)

/-- The list `main_cols` of the TP53 Database page (app.py line 100). -/
def main_cols : List String := ["id", "length", "identity_to_human"]

/-- The list `cols_to_show` of the TP53 Database page (app.py lines 101-104):
the main columns that are present, plus `cluster` when present. -/
def cols_to_show (df : DataFrame) : List String :=
  (main_cols.filter (fun c => decide (c ∈ df.columns)))
    ++ (if has_cluster df then ["cluster"] else [])

/-- Column projection `df[cols]` (for `cols` built from existing columns). -/
def project (df : DataFrame) (cols : List String) : DataFrame :=
  { columns := cols, rows := df.rows.map (fun r => cols.map (lookupCell df.columns r)) }

/-- Numeric view of a cell, used as a sort key. -/
def toRat : Value → ℚ
  | .num q => q
  | .str _ => 0
  | .null => 0

/-- Sort key of a row for `sort_values(key)`. -/
def keyOf (cols : List String) (key : String) (r : List Value) : ℚ :=
  toRat (lookupCell cols r key)

/-- Row ordering for `sort_values(key, ascending=False)`: `a` before `b`
when `a`'s key is at least `b`'s. -/
def rowGe (cols : List String) (key : String) (a b : List Value) : Prop :=
  keyOf cols key b ≤ keyOf cols key a

instance (cols : List String) (key : String) : DecidableRel (rowGe cols key) :=
  fun a b => inferInstanceAs (Decidable (keyOf cols key b ≤ keyOf cols key a))

instance (cols : List String) (key : String) : IsTotal (List Value) (rowGe cols key) :=
  ⟨fun _ _ => le_total _ _⟩

instance (cols : List String) (key : String) : IsTrans (List Value) (rowGe cols key) :=
  ⟨fun _ _ _ hab hbc => le_trans hbc hab⟩

/-- The call `df.sort_values(key, ascending=False)`: raises `KeyError` when the key
column is absent, otherwise reorders the rows by descending key. -/
def sortValuesDesc (df : DataFrame) (key : String) : Except String DataFrame :=
  if key ∈ df.columns then
    .ok { columns := df.columns,
          rows := df.rows.insertionSort (rowGe df.columns key) }
  else .error ("KeyError: " ++ key)

/-- The table displayed by the TP53 Database page (app.py line 106):
`features_df[cols_to_show].sort_values("identity_to_human", ascending=False)`. -/
def databaseTable (df : DataFrame) : Except String DataFrame :=
  sortValuesDesc (project df (cols_to_show df)) "identity_to_human"

/-- The list `features_df["id"].tolist()` (app.py line 123), ignoring the KeyError case. -/
def idList (df : DataFrame) : List Value :=
  df.rows.map (fun r => lookupCell df.columns r "id")

/-- The widget `st.selectbox`: it returns the option at the user's pick (the
first option by default), and `None` when the option list is empty. -/
def selectbox (options : List Value) (pick : Nat) : Option Value :=
  match options.get? pick with
  | some v => some v
  | none => options.head?

/-- Elementwise pandas equality, as in the mask `features_df["id"] == v`:
any comparison involving a missing value (NaN) is `False`, including
NaN == NaN. -/
def pdEq : Value → Value → Bool
  | .null, _ => false
  | _, .null => false
  | x, v => x == v

/-- The boolean mask `features_df["id"] == selected_id` applied to one row:
a pandas comparison with `None` is elementwise `False`. -/
def idMatches (cols : List String) (selected : Option Value) (r : List Value) : Bool :=
  match selected with
  | some v => pdEq (lookupCell cols r "id") v
  | none => false

/-- Row selection of the Explore page (app.py lines 123-127):
`seq_ids = features_df["id"].tolist()`, `selected_id = st.selectbox(...)`,
`row = features_df[features_df["id"] == selected_id].iloc[0]`.
`.iloc[0]` on an empty selection raises `IndexError`. -/
def selectionLogic (df : DataFrame) (pick : Nat) : Except String (List Value) :=
  if "id" ∈ df.columns then
    let seq_ids := idList df
    let selected := selectbox seq_ids pick
    let hits := df.rows.filter (idMatches df.columns selected)
    match hits with
    | r :: _ => .ok r
    | [] => .error "IndexError: single positional indexer is out-of-bounds"
  else .error "KeyError: id"

/-- Strip a leading pattern from a character list, `none` when it is not a
leading pattern. -/
def dropPre : List Char → List Char → Option (List Char)
  | [], l => some l
  | _ :: _, [] => none
  | p :: ps, c :: cs => if p = c then dropPre ps cs else none

/-- Left-to-right, non-overlapping replacement of every occurrence of `pat`
by `repl`, as Python's `str.replace` does; `fuel` bounds the recursion by the
input length. -/
def listReplaceAux (pat repl : List Char) : Nat → List Char → List Char
  | _, [] => []
  | 0, l => l
  | fuel + 1, c :: rest =>
    match dropPre pat (c :: rest) with
    | some rest2 => repl ++ listReplaceAux pat repl fuel rest2
    | none => c :: listReplaceAux pat repl fuel rest

/-- Replacement of every occurrence of a nonempty pattern. -/
def listReplace (pat repl l : List Char) : List Char :=
  if pat.isEmpty then l else listReplaceAux pat repl l.length l

/-- Python string replacement `s.replace(pattern, repl)`: every occurrence replaced. -/
def replaceAll (s pattern repl : String) : String :=
  ⟨listReplace pattern.data repl.data s.data⟩

/-- Python string test `s.startswith(pattern)`. -/
def startsWithF (s pattern : String) : Bool :=
  (dropPre pattern.data s.data).isSome

/-- The amino-acid composition table of the Explore page (app.py lines 143-146):
one entry per `frac_`-named column, labeled by
`comp_df["index"].str.replace("frac_", "")` (which removes every occurrence
of the substring), valued by the selected row's cell. -/
def compRow (cols : List String) (row : List Value) : List (String × Value) :=
  (cols.filter (fun c => startsWithF c "frac_")).map
    (fun c => (replaceAll c "frac_" "", lookupCell cols row c))

/-- The values shown by the Explore page's detail view (app.py lines 129-147). -/
structure ExploreDetail where
  lengthVal : Value
  identityVal : Option Value
  clusterVal : Option Value
  composition : List (String × Value)
deriving DecidableEq, Repr

/-- The Explore a Sequence page (app.py lines 115-147): select a row, then
display its length (`row['length']`, a KeyError when absent), its identity
when the column is present, its cluster when `has_cluster`, and the
composition table. -/
def explorePage (df : DataFrame) (pick : Nat) : Except String ExploreDetail := do
  let row ← selectionLogic df pick
  let lengthVal ← cellE df.columns row "length"
  let identityVal := if "identity_to_human" ∈ df.columns
    then some (lookupCell df.columns row "identity_to_human") else none
  let clusterVal := if has_cluster df
    then some (lookupCell df.columns row "cluster") else none
  pure { lengthVal := lengthVal, identityVal := identityVal,
         clusterVal := clusterVal, composition := compRow df.columns row }

/-- One rendered widget. -/
inductive RenderItem where
  | header (s : String)
  | subheader (s : String)
  | markdown (s : String)
  | writeText (s : String)
  | image (path caption : String)
  | warning (s : String)
  | errorMsg (s : String)
  | sidebarSuccess (s : String)
  | dataframe (df : DataFrame)
  | detail (d : ExploreDetail)
  | stop
deriving DecidableEq, Repr

/-- The error message shown when neither candidate file exists (app.py lines 36-39). -/
def loadErrorText : String :=
  "❌ Could not find features file in 'data/' folder."

/-- The title and introduction rendered before the load check (app.py lines 13-17). -/
def introItems : List RenderItem :=
  [.header "🧬 TP53 Cancer Resistance Explorer",
   .markdown "This app lets you explore human and elephant TP53 genes."]

def treePath : String := "images/TP53_tree.png"
def logoPath : String := "images/TP53_MSA_logo.png"
def barplotPath : String := "images/identity_barplot.png"

def treeWarnText : String := "Tree image not found. Put 'TP53_tree.png' in the images folder."
def logoWarnText : String := "Logo image not found. Put 'TP53_MSA_logo.png' in the images folder."
def barplotWarnText : String := "Barplot image not found. Put 'identity_barplot.png' in the images folder."

def overviewOutroText : String :=
  "On this page you can see the evolutionary tree, conservation pattern, and overall similarity."

/-- The Overview page (app.py lines 55-87): each of the three images is shown
when its file exists, with a warning otherwise, and the page always ends with
the closing markdown. -/
def overviewPage (fs : FileSystem) : List RenderItem :=
  [.header "🔬 Overview of Analysis", .subheader "Phylogenetic Tree"]
  ++ (if fs.present treePath then
        [.image treePath "Figure 1. Phylogenetic tree of TP53 and retrogenes."]
      else [.warning treeWarnText])
  ++ [.subheader "MSA Conservation Logo"]
  ++ (if fs.present logoPath then
        [.image logoPath "Figure 2. TP53 multiple sequence alignment logo."]
      else [.warning logoWarnText])
  ++ [.markdown "---", .subheader "Identity to Human TP53"]
  ++ (if fs.present barplotPath then
        [.image barplotPath "Figure 3. Top TP53/RTG sequences by identity to human TP53."]
      else [.warning barplotWarnText])
  ++ [.markdown overviewOutroText]

/-- The TP53 Database page (app.py lines 90-112). -/
def databasePageItems (df : DataFrame) : Except String (List RenderItem) :=
  (databaseTable df).map (fun t =>
    [.header "📊 TP53 Feature Table",
     .writeText "This table shows all TP53 and TP53-like sequences used in your analysis.",
     .dataframe t,
     .markdown "Tip for Viva / Thesis"])

/-- The Explore a Sequence page as render items (app.py lines 115-153). -/
def explorePageItems (df : DataFrame) (pick : Nat) : Except String (List RenderItem) :=
  (explorePage df pick).map (fun d =>
    [.header "🔍 Explore a Single TP53 / RTG Sequence", .detail d,
     .markdown "You can explain in your thesis that sequences with higher similarity may be functional TP53 paralogs."])

/-- The About page (app.py lines 156-177): static markdown only. -/
def aboutItems : List RenderItem :=
  [.header "ℹ️ About This App",
   .markdown "Project: AI-Driven Comparative Analysis of TP53 Paralogs in Elephants and Humans",
   .markdown "---",
   .markdown "Built with Python and Streamlit."]

/-- Dispatch on the sidebar radio selection (app.py lines 49-52, 55, 90, 115, 156). -/
def pageDispatch (df : DataFrame) (fs : FileSystem) (page : String) (pick : Nat) :
    Except String (List RenderItem) :=
  if page = "Overview" then .ok (overviewPage fs)
  else if page = "TP53 Database" then databasePageItems df
  else if page = "Explore a Sequence" then explorePageItems df pick
  else if page = "About" then .ok aboutItems
  else .ok []

/-- The app's state: the filesystem and the cached result of the one-time
`load_features()` call (app.py line 33, cached by `st.cache_data`). -/
structure AppState where
  fs : FileSystem
  features : Option (DataFrame × String)

/-- The state at process start: the table is loaded once from the filesystem. -/
def initState (fs : FileSystem) : AppState :=
  { fs := fs, features := load_features fs }

/-- One page rendering pass: it reads the cached table and produces render
items (or an uncaught exception), returning the state it leaves behind. -/
def handlePage (st : AppState) (page : String) (pick : Nat) :
    AppState × Except String (List RenderItem) :=
  match st.features with
  | none => (st, .ok [.errorMsg loadErrorText, .stop])
  | some (df, _) => (st, pageDispatch df st.fs page pick)

/-- A full script run (app.py top to bottom): the intro, then either the load
error followed by `st.stop()`, or the sidebar success message and the selected
page.  The second component is the uncaught exception, if any; the first holds
everything rendered before that point. -/
def runApp (fs : FileSystem) (page : String) (pick : Nat) :
    List RenderItem × Option String :=
  let st := initState fs
  match st.features with
  | none => (introItems ++ [.errorMsg loadErrorText, .stop], none)
  | some (_, fname) =>
    match (handlePage st page pick).2 with
    | .ok items =>
      (introItems ++ [.sidebarSuccess ("Loaded features from: " ++ fname)] ++ items, none)
    | .error e =>
      (introItems ++ [.sidebarSuccess ("Loaded features from: " ++ fname)], some e)

/-- Modelled from the spec: the composition label the spec describes, `the
column name with that prefix removed` (only the leading `frac_` is dropped). -/
def specLabelOfCol (c : String) : String :=
  if startsWithF c "frac_" then ⟨c.data.drop 5⟩ else c

/-- Concrete one-row table used to exercise C1. -/
def dfC1 : DataFrame :=
  { columns := ["id", "length", "identity_to_human"],
    rows := [[.str "human_TP53", .num 393, .num 100]] }

/-- Filesystem in which only the first (clustered) candidate exists. -/
def fsC1 : FileSystem :=
  { present := fun s => s == "data/tp53_features_with_similarity_clustered.csv",
    content := fun _ => dfC1 }

/-- Filesystem in which no file exists at all. -/
def fsC2 : FileSystem :=
  { present := fun _ => false,
    content := fun _ => { columns := [], rows := [] } }

/-- Concrete two-row table with unique ids, used to exercise C3. -/
def dfC3w : DataFrame :=
  { columns := ["id", "length", "identity_to_human"],
    rows := [[.str "human_TP53", .num 393, .num 100],
             [.str "eleph_RTG9", .num 390, .num (983/10)]] }

/-- Concrete table with a header but zero rows, used to exercise C4. -/
def dfC4empty : DataFrame :=
  { columns := ["id", "length", "identity_to_human"], rows := [] }

/-- Concrete one-row table used to exercise the amended C4. -/
def dfC4one : DataFrame :=
  { columns := ["id", "length", "identity_to_human"],
    rows := [[.str "eleph_TP53", .num 392, .num 99]] }

/-- Concrete one-row table whose identifier cell is missing (NaN), used to
exercise the NaN branch of the amended C4. -/
def dfC4null : DataFrame :=
  { columns := ["id", "length", "identity_to_human"],
    rows := [[.null, .num 100, .num 50]] }

/-- Concrete table with a header but zero rows, used to exercise C5. -/
def dfC5e : DataFrame :=
  { columns := ["id", "length", "identity_to_human"], rows := [] }

/-- Filesystem in which only the second (fallback) candidate exists and
parses to a table with zero rows. -/
def fsC5e : FileSystem :=
  { present := fun s => s == "data/tp53_features_with_similarity.csv",
    content := fun _ => dfC5e }

/-- Concrete one-row table used to exercise the amended C5. -/
def dfC5w : DataFrame :=
  { columns := ["id", "length", "identity_to_human"],
    rows := [[.str "human_TP53", .num 393, .num 100]] }

/-- Filesystem in which only the second (fallback) candidate exists. -/
def fsC5w : FileSystem :=
  { present := fun s => s == "data/tp53_features_with_similarity.csv",
    content := fun _ => dfC5w }

/-- Concrete table without a `cluster` column, used to exercise C6. -/
def dfC6 : DataFrame :=
  { columns := ["id", "length", "identity_to_human"],
    rows := [[.str "human_TP53", .num 393, .num 100],
             [.str "eleph_RTG3", .num 380, .num 95]] }

/-- Filesystem in which none of the image assets exists, used to exercise C7. -/
def fsC7 : FileSystem :=
  { present := fun _ => false,
    content := fun _ => { columns := [], rows := [] } }

/-- Concrete table with a `cluster` column and unsorted identities, used to
exercise C9. -/
def dfC9 : DataFrame :=
  { columns := ["id", "length", "identity_to_human", "cluster"],
    rows := [[.str "eleph_RTG3", .num 380, .num 95, .num 1],
             [.str "human_TP53", .num 393, .num 100, .num 0],
             [.str "eleph_RTG9", .num 390, .num (983/10), .num 1]] }

/-- Concrete table whose single composition column contains the substring
`frac_` twice, used to exercise C10. -/
def dfC10 : DataFrame :=
  { columns := ["id", "length", "frac_frac_A"],
    rows := [[.str "s1", .num 393, .num (1/2)]] }

/-- Concrete table with two ordinary composition columns, used to exercise
the amended C10. -/
def dfC10w : DataFrame :=
  { columns := ["id", "length", "frac_A", "frac_C"],
    rows := [[.str "s1", .num 400, .num (3/10), .num (7/10)]] }

theorem tryLoad_eq (fs : FileSystem) (l : List String) :
    tryLoad fs l = (l.find? fs.present).map (fun f => (fs.content f, f)) := by
  induction l with
  | nil => rfl
  | cons a t ih =>
    cases h : fs.present a <;>
      simp [tryLoad, List.find?_cons, h, ih]

theorem runApp_of_find_none (fs : FileSystem)
    (hf : candidates.find? fs.present = none) (page : String) (pick : Nat) :
    runApp fs page pick = (introItems ++ [.errorMsg loadErrorText, .stop], none) := by
  have hl : load_features fs = none := by
    rw [load_features, tryLoad_eq, hf]
    rfl
  simp [runApp, initState, hl]

/-- C1: load_features returns the parsed table of the first existing file in
the fixed two-element candidate list; when neither candidate exists, the app
renders the user-visible error and stops, with no uncaught exception. -/
theorem c1_file_resolution (fs : FileSystem) :
    (∀ f, candidates.find? fs.present = some f →
      load_features fs = some (fs.content f, f)) ∧
    (candidates.find? fs.present = none →
      ∀ page pick, runApp fs page pick =
        (introItems ++ [.errorMsg loadErrorText, .stop], none)) := by
  constructor
  · intro f hf
    rw [load_features, tryLoad_eq, hf]
    rfl
  · intro hf page pick
    exact runApp_of_find_none fs hf page pick

/-- Witness for C1: with only the clustered candidate present, load_features
parses exactly that file and reports its name. -/
theorem c1_file_resolution_witness :
    load_features fsC1 =
      some (fsC1.content "data/tp53_features_with_similarity_clustered.csv",
            "data/tp53_features_with_similarity_clustered.csv") :=
  (c1_file_resolution fsC1).1 _ (by decide)

/-- C2: when neither candidate file exists, load_features returns the
sentinel `none` (modelling `(None, None)`) without raising, and the script
renders the error message followed by `st.stop()` and nothing further. -/
theorem c2_absent_halts (fs : FileSystem)
    (h : ∀ f ∈ candidates, fs.present f = false) :
    load_features fs = none ∧
    ∀ page pick, runApp fs page pick =
      (introItems ++ [.errorMsg loadErrorText, .stop], none) := by
  have hf : candidates.find? fs.present = none := by
    rw [List.find?_eq_none]
    intro x hx
    simp [h x hx]
  refine ⟨?_, fun page pick => runApp_of_find_none fs hf page pick⟩
  rw [load_features, tryLoad_eq, hf]
  rfl

theorem selectbox_mem {l : List Value} {pick : Nat} {v : Value}
    (h : selectbox l pick = some v) : v ∈ l := by
  unfold selectbox at h
  cases hg : l.get? pick with
  | some w =>
    rw [hg] at h
    cases h
    exact List.get?_mem hg
  | none =>
    rw [hg] at h
    cases l with
    | nil => simp at h
    | cons a t =>
      simp [List.head?] at h
      rw [← h]
      exact List.mem_cons_self a t

theorem filter_eq_single_of_nodup_map {α β : Type} [DecidableEq β] (f : α → β) (v : β) :
    ∀ l : List α, (l.map f).Nodup → v ∈ l.map f →
      ∃ r, l.filter (fun x => f x == v) = [r] ∧ f r = v := by
  intro l
  induction l with
  | nil =>
    intro _ hv
    simp at hv
  | cons a t ih =>
    intro hnd hv
    rw [List.map_cons, List.nodup_cons] at hnd
    obtain ⟨ha, hndt⟩ := hnd
    by_cases hfa : f a = v
    · refine ⟨a, ?_, hfa⟩
      rw [List.filter_cons, if_pos (by simp [hfa])]
      have ht : t.filter (fun x => f x == v) = [] := by
        rw [List.filter_eq_nil_iff]
        intro x hx hbx
        have hfx : f x = v := by simpa using hbx
        exact ha ((hfx.trans hfa.symm) ▸ List.mem_map_of_mem f hx)
      rw [ht]
    · have hvt : v ∈ t.map f := by
        rcases List.mem_cons.1 hv with h | h
        · exact absurd h.symm hfa
        · exact h
      obtain ⟨r, hr, hfr⟩ := ih hndt hvt
      refine ⟨r, ?_, hfr⟩
      rw [List.filter_cons, if_neg (by simp [hfa]), hr]

/-- Witness for C2: with an entirely empty filesystem the loader signals
absence and the script halts with the error message and stop. -/
theorem c2_absent_halts_witness :
    load_features fsC2 = none ∧
    runApp fsC2 "Overview" 0 = (introItems ++ [.errorMsg loadErrorText, .stop], none) := by
  have h := c2_absent_halts fsC2 (by decide)
  exact ⟨h.1, h.2 "Overview" 0⟩

theorem pdEq_eq_beq {v : Value} (hvn : v ≠ Value.null) (x : Value) :
    pdEq x v = (x == v) := by
  cases x <;> cases v <;> simp_all [pdEq]

theorem pdEq_null_right (x : Value) : pdEq x Value.null = false := by
  cases x <;> rfl

/-- C3: with unique identifiers and a selection that returned a known
(non-missing) identifier, the Explore page's filter produces exactly one row,
and the detail view displays exactly that row's stored length and identity
values. -/
theorem c3_selection_unique (df : DataFrame) (pick : Nat) (v : Value)
    (hnd : (idList df).Nodup)
    (hid : "id" ∈ df.columns)
    (hlen : "length" ∈ df.columns)
    (hidc : "identity_to_human" ∈ df.columns)
    (hv : selectbox (idList df) pick = some v)
    (hvn : v ≠ Value.null) :
    ∃ r, df.rows.filter (fun x => lookupCell df.columns x "id" == v) = [r] ∧
      lookupCell df.columns r "id" = v ∧
      explorePage df pick = .ok
        { lengthVal := lookupCell df.columns r "length",
          identityVal := some (lookupCell df.columns r "identity_to_human"),
          clusterVal := if has_cluster df
            then some (lookupCell df.columns r "cluster") else none,
          composition := compRow df.columns r } := by
  have hvm : v ∈ idList df := selectbox_mem hv
  unfold idList at hnd hvm
  obtain ⟨r, hfil, hfr⟩ :=
    filter_eq_single_of_nodup_map (fun x => lookupCell df.columns x "id") v df.rows hnd hvm
  have hpred : idMatches df.columns (some v) =
      fun x => lookupCell df.columns x "id" == v := by
    funext x
    simp only [idMatches]
    exact pdEq_eq_beq hvn _
  have hsel : selectionLogic df pick = .ok r := by
    have hfil' : df.rows.filter (idMatches df.columns (some v)) = [r] := by
      rw [hpred]
      exact hfil
    simp only [selectionLogic, if_pos hid, hv, hfil']
  refine ⟨r, hfil, hfr, ?_⟩
  simp [explorePage, hsel, cellE, hlen, hidc]
  rfl

/-- Witness for C3 at a concrete two-row table with unique ids. -/
theorem c3_selection_unique_witness :
    ∃ r, dfC3w.rows.filter
        (fun x => lookupCell dfC3w.columns x "id" == Value.str "human_TP53") = [r] ∧
      lookupCell dfC3w.columns r "id" = Value.str "human_TP53" ∧
      explorePage dfC3w 0 = .ok
        { lengthVal := lookupCell dfC3w.columns r "length",
          identityVal := some (lookupCell dfC3w.columns r "identity_to_human"),
          clusterVal := if has_cluster dfC3w
            then some (lookupCell dfC3w.columns r "cluster") else none,
          composition := compRow dfC3w.columns r } :=
  c3_selection_unique dfC3w 0 (Value.str "human_TP53")
    (by decide) (by decide) (by decide) (by decide) (by decide) (by decide)

/-- C4 counterexample: on the empty feature table the Explore page's
selection logic does not complete; `.iloc[0]` on the empty selection raises
an IndexError, which propagates out of the page. -/
theorem c4_counterexample_empty_raises :
    explorePage dfC4empty 0 =
      .error "IndexError: single positional indexer is out-of-bounds" := by
  rfl

/-- C4 (amended): row selection by identifier completes without raising
exactly when the selectbox returned a non-missing identifier: with an `id`
column and a selected non-NaN id, `.iloc[0]` succeeds; with a selected NaN id
the pandas mask is elementwise False (NaN never equals NaN) and `.iloc[0]`
raises the same IndexError as on the empty table. -/
theorem c4_amended_selection (df : DataFrame) (pick : Nat) (v : Value)
    (hid : "id" ∈ df.columns)
    (hv : selectbox (idList df) pick = some v) :
    (v ≠ Value.null → ∃ r, selectionLogic df pick = .ok r) ∧
    (v = Value.null → selectionLogic df pick =
      .error "IndexError: single positional indexer is out-of-bounds") := by
  constructor
  · intro hvn
    have hvm := selectbox_mem hv
    simp only [idList, List.mem_map] at hvm
    obtain ⟨r0, hr0, hfr0⟩ := hvm
    have hmem : r0 ∈ df.rows.filter (idMatches df.columns (some v)) := by
      rw [List.mem_filter]
      refine ⟨hr0, ?_⟩
      simp [idMatches, pdEq_eq_beq hvn, hfr0]
    simp only [selectionLogic, if_pos hid, hv]
    cases hfl : df.rows.filter (idMatches df.columns (some v)) with
    | nil =>
      rw [hfl] at hmem
      simp at hmem
    | cons b l =>
      exact ⟨b, rfl⟩
  · intro hvn
    subst hvn
    have hfl : df.rows.filter (idMatches df.columns (some Value.null)) = [] := by
      rw [List.filter_eq_nil_iff]
      intro x hx
      simp [idMatches, pdEq_null_right]
    simp only [selectionLogic, if_pos hid, hv, hfl]

/-- Witness for the amended C4: selection succeeds on a one-row table with a
string id, and raises on a one-row table whose id cell is missing. -/
theorem c4_amended_selection_witness :
    (∃ r, selectionLogic dfC4one 0 = .ok r) ∧
    selectionLogic dfC4null 0 =
      .error "IndexError: single positional indexer is out-of-bounds" :=
  ⟨(c4_amended_selection dfC4one 0 (Value.str "eleph_TP53")
      (by decide) (by rfl)).1 (by decide),
   (c4_amended_selection dfC4null 0 Value.null (by decide) (by rfl)).2 rfl⟩

/-- C5 counterexample: with the fallback candidate present but parsing to a
table with zero rows, load_features returns that empty table (so the claimed
non-emptiness fails). -/
theorem c5_counterexample_empty_table :
    fsC5e.present "data/tp53_features_with_similarity.csv" = true ∧
    load_features fsC5e = some (dfC5e, "data/tp53_features_with_similarity.csv") ∧
    dfC5e.rows = [] := by
  exact ⟨rfl, rfl, rfl⟩

/-- C5 (amended): when at least one candidate exists, load_features returns
the parsed table of the first existing candidate (possibly with zero rows)
together with its filename, and the sidebar reports that filename. -/
theorem c5_amended_reports_filename (fs : FileSystem) (f : String)
    (hf : candidates.find? fs.present = some f) (page : String) (pick : Nat) :
    load_features fs = some (fs.content f, f) ∧
    RenderItem.sidebarSuccess ("Loaded features from: " ++ f) ∈ (runApp fs page pick).1 := by
  have hl : load_features fs = some (fs.content f, f) := by
    rw [load_features, tryLoad_eq, hf]
    rfl
  refine ⟨hl, ?_⟩
  unfold runApp
  simp only [initState, hl]
  cases h2 : (handlePage { fs := fs, features := some (fs.content f, f) } page pick).2 with
  | ok items => simp [h2]
  | error e => simp [h2]

/-- Witness for the amended C5: only the fallback candidate exists, and the
sidebar reports it. -/
theorem c5_amended_reports_filename_witness :
    load_features fsC5w =
      some (fsC5w.content "data/tp53_features_with_similarity.csv",
            "data/tp53_features_with_similarity.csv") ∧
    RenderItem.sidebarSuccess
        ("Loaded features from: " ++ "data/tp53_features_with_similarity.csv") ∈
      (runApp fsC5w "About" 0).1 :=
  c5_amended_reports_filename fsC5w "data/tp53_features_with_similarity.csv"
    (by decide) "About" 0

theorem except_bind_ok {ε α β : Type} (a : α) (f : α → Except ε β) :
    ((Except.ok a : Except ε α) >>= f) = f a := rfl

theorem except_bind_error {ε α β : Type} (e : ε) (f : α → Except ε β) :
    ((Except.error e : Except ε α) >>= f) = Except.error e := rfl

theorem identity_mem_cols_to_show (df : DataFrame) :
    "identity_to_human" ∈ cols_to_show df ↔ "identity_to_human" ∈ df.columns := by
  unfold cols_to_show main_cols
  by_cases hc : has_cluster df <;> simp [hc, List.mem_filter]

/-- C6: when the loaded table has no `cluster` column, the Database page's
column list omits `cluster`, the Explore detail view shows no cluster line,
and the Database rendering still succeeds whenever its sort key is present:
no operation raises because `cluster` is absent. -/
theorem c6_no_cluster_ui (df : DataFrame) (h : "cluster" ∉ df.columns) :
    "cluster" ∉ cols_to_show df ∧
    (∀ pick d, explorePage df pick = .ok d → d.clusterVal = none) ∧
    ("identity_to_human" ∈ df.columns → ∃ t, databaseTable df = .ok t) := by
  have hcb : has_cluster df = false := by
    simp [has_cluster, h]
  refine ⟨?_, ?_, ?_⟩
  · unfold cols_to_show
    rw [hcb]
    simp [main_cols, List.mem_filter]
  · intro pick d hd
    unfold explorePage at hd
    cases hsel : selectionLogic df pick with
    | error e =>
      rw [hsel, except_bind_error] at hd
      exact Except.noConfusion hd
    | ok r =>
      rw [hsel, except_bind_ok] at hd
      cases hce : cellE df.columns r "length" with
      | error e =>
        rw [hce, except_bind_error] at hd
        exact Except.noConfusion hd
      | ok lv =>
        rw [hce, except_bind_ok] at hd
        have hd2 : Except.ok
            ({ lengthVal := lv,
               identityVal := if "identity_to_human" ∈ df.columns
                 then some (lookupCell df.columns r "identity_to_human") else none,
               clusterVal := if has_cluster df
                 then some (lookupCell df.columns r "cluster") else none,
               composition := compRow df.columns r } : ExploreDetail) = Except.ok d := hd
        rw [← Except.ok.inj hd2]
        simp [hcb]
  · intro hident
    have hm : "identity_to_human" ∈ (project df (cols_to_show df)).columns :=
      (identity_mem_cols_to_show df).2 hident
    refine ⟨{ columns := cols_to_show df,
              rows := (project df (cols_to_show df)).rows.insertionSort
                (rowGe (cols_to_show df) "identity_to_human") }, ?_⟩
    unfold databaseTable sortValuesDesc
    rw [if_pos hm]
    rfl

/-- Witness for C6 at a concrete table without a cluster column. -/
theorem c6_no_cluster_ui_witness :
    "cluster" ∉ cols_to_show dfC6 ∧
    (∀ pick d, explorePage dfC6 pick = .ok d → d.clusterVal = none) ∧
    ("identity_to_human" ∈ dfC6.columns → ∃ t, databaseTable dfC6 = .ok t) :=
  c6_no_cluster_ui dfC6 (by decide)

/-- C7: the Overview page never raises (its dispatch is always `ok`); for
each of the three image assets independently, absence renders the matching
warning; and the page always continues through to its closing markdown. -/
theorem c7_missing_images_warn (df : DataFrame) (fs : FileSystem) (pick : Nat) :
    pageDispatch df fs "Overview" pick = .ok (overviewPage fs) ∧
    (fs.present treePath = false → RenderItem.warning treeWarnText ∈ overviewPage fs) ∧
    (fs.present logoPath = false → RenderItem.warning logoWarnText ∈ overviewPage fs) ∧
    (fs.present barplotPath = false → RenderItem.warning barplotWarnText ∈ overviewPage fs) ∧
    (overviewPage fs).getLast? = some (.markdown overviewOutroText) := by
  refine ⟨rfl, ?_, ?_, ?_, ?_⟩
  · intro h
    simp [overviewPage, h]
  · intro h
    simp [overviewPage, h]
  · intro h
    simp [overviewPage, h]
  · by_cases h1 : fs.present treePath <;> by_cases h2 : fs.present logoPath <;>
      by_cases h3 : fs.present barplotPath <;>
        (simp [overviewPage, h1, h2, h3]; try rfl)

/-- Witness for C7: with no image file present, all three warnings render. -/
theorem c7_missing_images_warn_witness :
    RenderItem.warning treeWarnText ∈ overviewPage fsC7 ∧
    RenderItem.warning logoWarnText ∈ overviewPage fsC7 ∧
    RenderItem.warning barplotWarnText ∈ overviewPage fsC7 :=
  ⟨(c7_missing_images_warn { columns := [], rows := [] } fsC7 0).2.1 rfl,
   (c7_missing_images_warn { columns := [], rows := [] } fsC7 0).2.2.1 rfl,
   (c7_missing_images_warn { columns := [], rows := [] } fsC7 0).2.2.2.1 rfl⟩

/-- C8: page handling never mutates the app state; the cached feature table
a page handler reads is exactly the value loaded once at start-up. -/
theorem c8_features_immutable (st : AppState) (page : String) (pick : Nat) :
    (handlePage st page pick).1 = st ∧
    ∀ fs : FileSystem, (initState fs).features = load_features fs := by
  constructor
  · cases h : st.features with
    | none => simp [handlePage, h]
    | some x =>
      cases x
      simp [handlePage, h]
  · intro fs
    rfl

/-- C9: the Database page's displayed table has exactly the main columns that
are present (plus `cluster` when present), its rows are a reordering of the
projected rows sorted by `identity_to_human` descending, and the rendering
raises a KeyError exactly when `identity_to_human` is absent. -/
theorem c9_database_table (df : DataFrame) :
    ("identity_to_human" ∈ df.columns →
      ∃ t, databaseTable df = .ok t ∧
        t.columns = (main_cols.filter (fun c => decide (c ∈ df.columns)))
          ++ (if has_cluster df then ["cluster"] else []) ∧
        t.rows.Perm (project df (cols_to_show df)).rows ∧
        List.Sorted (rowGe (cols_to_show df) "identity_to_human") t.rows) ∧
    ("identity_to_human" ∉ df.columns →
      databaseTable df = .error "KeyError: identity_to_human") := by
  constructor
  · intro hident
    have hm : "identity_to_human" ∈ (project df (cols_to_show df)).columns :=
      (identity_mem_cols_to_show df).2 hident
    refine ⟨{ columns := cols_to_show df,
              rows := (project df (cols_to_show df)).rows.insertionSort
                (rowGe (cols_to_show df) "identity_to_human") }, ?_, rfl, ?_, ?_⟩
    · unfold databaseTable sortValuesDesc
      rw [if_pos hm]
      rfl
    · exact List.perm_insertionSort _ _
    · exact List.sorted_insertionSort _ _
  · intro hident
    have hm : "identity_to_human" ∉ (project df (cols_to_show df)).columns :=
      fun hx => hident ((identity_mem_cols_to_show df).1 hx)
    unfold databaseTable sortValuesDesc
    rw [if_neg hm]
    rfl

/-- Witness for C9 at a concrete table with a cluster column and unsorted
identity values. -/
theorem c9_database_table_witness :
    ∃ t, databaseTable dfC9 = .ok t ∧
      t.columns = (main_cols.filter (fun c => decide (c ∈ dfC9.columns)))
        ++ (if has_cluster dfC9 then ["cluster"] else []) ∧
      t.rows.Perm (project dfC9 (cols_to_show dfC9)).rows ∧
      List.Sorted (rowGe (cols_to_show dfC9) "identity_to_human") t.rows :=
  (c9_database_table dfC9).1 (by decide)

/-- C10 counterexample: a composition column whose name contains `frac_`
twice is labeled with every occurrence removed (`A`), not with only the
prefix removed (`frac_A`) as the claim states. -/
theorem c10_counterexample_label :
    explorePage dfC10 0 = .ok
      { lengthVal := .num 393, identityVal := none, clusterVal := none,
        composition := [("A", .num (1/2))] } ∧
    specLabelOfCol "frac_frac_A" = "frac_A" ∧
    ("A" : String) ≠ "frac_A" := by
  refine ⟨by rfl, by rfl, by decide⟩

/-- C10 (amended): whenever the Explore page's selection succeeds and the
`length` column is present, the page completes without error and its
composition table has exactly one entry per `frac_`-named column, labeled by
the column name with every occurrence of `frac_` removed and valued by the
selected row's cell; with zero `frac_` columns it is the empty table. -/
theorem c10_composition (df : DataFrame) (pick : Nat) (r : List Value)
    (hsel : selectionLogic df pick = .ok r)
    (hlen : "length" ∈ df.columns) :
    ∃ d, explorePage df pick = .ok d ∧
      d.composition = (df.columns.filter (fun c => startsWithF c "frac_")).map
        (fun c => (replaceAll c "frac_" "", lookupCell df.columns r c)) ∧
      (df.columns.filter (fun c => startsWithF c "frac_") = [] →
        d.composition = []) := by
  refine ⟨{ lengthVal := lookupCell df.columns r "length",
            identityVal := if "identity_to_human" ∈ df.columns
              then some (lookupCell df.columns r "identity_to_human") else none,
            clusterVal := if has_cluster df
              then some (lookupCell df.columns r "cluster") else none,
            composition := compRow df.columns r }, ?_, rfl, ?_⟩
  · unfold explorePage
    rw [hsel, except_bind_ok]
    unfold cellE
    rw [if_pos hlen, except_bind_ok]
    rfl
  · intro hz
    unfold compRow
    rw [hz]
    rfl

/-- Witness for the amended C10 at a concrete table with two composition
columns. -/
theorem c10_composition_witness :
    ∃ d, explorePage dfC10w 0 = .ok d ∧
      d.composition = (dfC10w.columns.filter (fun c => startsWithF c "frac_")).map
        (fun c => (replaceAll c "frac_" "",
          lookupCell dfC10w.columns [Value.str "s1", .num 400, .num (3/10), .num (7/10)] c)) ∧
      (dfC10w.columns.filter (fun c => startsWithF c "frac_") = [] →
        d.composition = []) :=
  c10_composition dfC10w 0 [Value.str "s1", .num 400, .num (3/10), .num (7/10)]
    (by rfl) (by decide)
